import Mathlib

/-!
Shallow embedding of the DreamHelper recommendation engine
(`src/engine/calculator.ts` together with the type declarations and default
weight tables of `src/types`).

Modelling conventions:
* JS `number` values that hold weights, multipliers, probabilities and scores
  are modelled as `ℚ`; counts and capacities are `Nat` (subtractions that can
  go negative in JS, such as `visionCapacity - bubbles.length`, are computed
  in `ℤ` exactly as the source does).
* JS object identity is made explicit: every `Bubble` carries an allocation
  address `addr`.  Functions that allocate fresh objects take a `base : Nat`
  allocation counter and give every freshly created object an address `≥ base`;
  a spread-clone `\x7b...b\x7d` is a fresh object with the same data fields.
  `Date.now()`-based id strings are modelled without the wall-clock component
  (the claims never inspect id strings).
* `Math.random()` draws are threaded as an explicit `roll : ℚ` argument.
* Functions that mutate their argument in place are additionally exposed in a
  reference-semantics form returning a pair
  (value of the argument object after the call, returned value).
-/

/-- The six ordered bubble grades, lowest to highest (src/types). -/
inductive BubbleQuality
  | White
  | Blue
  | Purple
  | Orange
  | Red
  | Rainbow
deriving DecidableEq, Repr

/-- The eight bubble categories (src/types). -/
inductive BubbleType
  | Gear
  | Blacksail
  | Cube
  | Commodity
  | Netherrealm
  | Fluorescent
  | Fuel
  | Whim
deriving DecidableEq, Repr

/-- A token of the collection.  `addr` models JS object identity (see module
comment); the remaining fields are the `Bubble` interface of src/types. -/
structure Bubble where
  addr : Nat
  id : String
  type : BubbleType
  quality : BubbleQuality
  locked : Option Bool
deriving DecidableEq, Repr

instance : Inhabited Bubble := ⟨⟨0, "", BubbleType.Gear, BubbleQuality.White, none⟩⟩

/-- The data fields of a bubble, with the object identity erased. -/
def Bubble.data (b : Bubble) : String × BubbleType × BubbleQuality × Option Bool :=
  (b.id, b.type, b.quality, b.locked)

/-- `count: number | [number, number]` of the Add effect (src/types). -/
inductive AddCount
  | single (n : Nat)
  | range (lo hi : Nat)
deriving DecidableEq, Repr

/-- `quality?: BubbleQuality | "highest" | "purple_or_better" | "blue_or_better"`. -/
inductive QualitySpec
  | exact (q : BubbleQuality)
  | highest
  | purpleOrBetter
  | blueOrBetter
deriving DecidableEq, Repr

/-- `bubbleType?: BubbleType | "random"` of the Add effect. -/
inductive BubbleTypeSpec
  | typ (t : BubbleType)
  | random
deriving DecidableEq, Repr

/-- `target?: "random" | "lowest" | "highest"` of the Remove effect (unused by the engine). -/
inductive RemoveTarget
  | random
  | lowest
  | highest
deriving DecidableEq, Repr

/-- `target?: "random" | "all"` of the Upgrade effect (unused by the engine). -/
inductive UpgradeTarget
  | random
  | all
deriving DecidableEq, Repr

/-- `target?: "random" | BubbleType` of the Replicate effect (unused by the engine). -/
inductive ReplicateTarget
  | random
  | typ (t : BubbleType)
deriving DecidableEq, Repr

/-- The `EffectType` tagged union of src/types, one constructor per variant. -/
inductive EffectType
  | add (count : AddCount) (quality : Option QualitySpec) (bubbleType : Option BubbleTypeSpec)
  | remove (count : Nat) (target : Option RemoveTarget)
  | upgrade (count : Nat) (tiers : Nat) (target : Option UpgradeTarget)
  | replicate (count : Nat) (target : Option ReplicateTarget)
  | changeType (count : Nat) (newType : BubbleType) (upgradeAfter : Option Bool)
  | fundamental_multiplyOnEnterNightmare (bubbleType : Option BubbleType) (multiplier : ℚ)
      (minQuality : Option BubbleQuality)
  | fundamental_chanceUpgradeOnEnterNightmare (chance : ℚ) (bubbleType : Option BubbleType)
  | fundamental_bonusOnQualityChange
  | fundamental_bonusOnTypeChange
  | fundamental_bonusOnAddRemove
  | complex (customLogic : String)
deriving DecidableEq, Repr

/-- The `LotusEffect` interface of src/types. -/
structure LotusEffect where
  id : String
  name : String
  description : String
  effect : EffectType
  nightmareOmen : Option String
  isFundamental : Option Bool
deriving DecidableEq, Repr

/-- The `BubbleState` interface of src/types. -/
structure BubbleState where
  bubbles : List Bubble
  visionCapacity : Nat
  fundamental : Option LotusEffect
deriving DecidableEq, Repr

/-- The `UserWeights` interface of src/types; the two `Record`s are total maps. -/
structure UserWeights where
  qualityMultipliers : BubbleQuality → ℚ
  typeWeights : BubbleType → ℚ
  riskTolerance : ℚ

/-- `DEFAULT_QUALITY_MULTIPLIERS` of src/types. -/
def DEFAULT_QUALITY_MULTIPLIERS : BubbleQuality → ℚ
  | BubbleQuality.White => 1
  | BubbleQuality.Blue => 2
  | BubbleQuality.Purple => 4
  | BubbleQuality.Orange => 8
  | BubbleQuality.Red => 16
  | BubbleQuality.Rainbow => 32

/-- `DEFAULT_TYPE_WEIGHTS` of src/types (`1.2` for Whim, `1.0` otherwise). -/
def DEFAULT_TYPE_WEIGHTS : BubbleType → ℚ
  | BubbleType.Gear => 1
  | BubbleType.Blacksail => 1
  | BubbleType.Cube => 1
  | BubbleType.Commodity => 1
  | BubbleType.Netherrealm => 1
  | BubbleType.Fluorescent => 1
  | BubbleType.Fuel => 1
  | BubbleType.Whim => 6 / 5

/-- The default `UserWeights` assembled by the UI (`riskTolerance: 0.5`). -/
def defaultWeights : UserWeights :=
  ⟨DEFAULT_QUALITY_MULTIPLIERS, DEFAULT_TYPE_WEIGHTS, 1 / 2⟩

/-- JS `x || d` on a numeric field: `0` is falsy and falls back to the default. -/
def numOr (x d : ℚ) : ℚ := if x = 0 then d else x

/-- The `qualities` array used by `upgradeQuality` and `determineQuality`. -/
def qualities : List BubbleQuality :=
  [BubbleQuality.White, BubbleQuality.Blue, BubbleQuality.Purple,
   BubbleQuality.Orange, BubbleQuality.Red, BubbleQuality.Rainbow]

/-- `upgradeQuality` (calculator.ts): advance `tiers` grade steps, clamped at the
top of the `qualities` array. -/
def upgradeQuality (current : BubbleQuality) (tiers : Nat) : BubbleQuality :=
  let currentIndex := qualities.indexOf current
  let newIndex := min (currentIndex + tiers) (qualities.length - 1)
  qualities.getD newIndex BubbleQuality.White

/-- `determineQuality` (calculator.ts). -/
def determineQuality (qualitySpec : Option QualitySpec) (state : BubbleState) : BubbleQuality :=
  match qualitySpec with
  | none => BubbleQuality.White
  | some QualitySpec.highest =>
      state.bubbles.foldl
        (fun highest b =>
          if qualities.indexOf highest < qualities.indexOf b.quality then b.quality else highest)
        BubbleQuality.White
  | some QualitySpec.purpleOrBetter => BubbleQuality.Purple
  | some QualitySpec.blueOrBetter => BubbleQuality.Blue
  | some (QualitySpec.exact q) => q

/-- `calculateStateValue` (calculator.ts): reduce over the bubbles, summing
`qualityMultipliers[quality] * typeWeights[type]` from `0`. -/
def calculateStateValue (state : BubbleState) (weights : UserWeights) : ℚ :=
  state.bubbles.foldl
    (fun total b => total + weights.qualityMultipliers b.quality * weights.typeWeights b.type) 0

/-- The deep clone at the head of `simulateLotusEffect`: each bubble is
spread-copied into a fresh object (fresh consecutive addresses from `base`,
same data fields). -/
def cloneBubbles (base : Nat) : List Bubble → List Bubble
  | [] => []
  | b :: bs => { b with addr := base } :: cloneBubbles (base + 1) bs

/-- The type resolution inside `handleAddEffect`'s loop:
`effect.bubbleType === "random" || !effect.bubbleType ? "Whim" : effect.bubbleType`. -/
def resolveAddType (bubbleType : Option BubbleTypeSpec) : BubbleType :=
  match bubbleType with
  | some (BubbleTypeSpec.typ t) => t
  | _ => BubbleType.Whim

/-- The push loop of `handleAddEffect`: one iteration re-resolves the quality
(`determineQuality` reads the growing state) and the type, then pushes a fresh
bubble. -/
def addLoop (base : Nat) (quality : Option QualitySpec) (bubbleType : Option BubbleTypeSpec) :
    Nat → Nat → BubbleState → BubbleState
  | 0, _, state => state
  | n + 1, i, state =>
      let q := determineQuality quality state
      let b : Bubble :=
        ⟨base + state.bubbles.length, "bubble-" ++ toString i, resolveAddType bubbleType, q, none⟩
      addLoop base quality bubbleType n (i + 1) { state with bubbles := state.bubbles ++ [b] }

/-- `handleAddEffect` (calculator.ts): average a range count, clamp to the
remaining capacity computed in `ℤ`, no-op when the clamp is non-positive. -/
def handleAddEffect (base : Nat) (state : BubbleState) (count : AddCount)
    (quality : Option QualitySpec) (bubbleType : Option BubbleTypeSpec) : BubbleState :=
  let c : Nat := match count with
    | AddCount.single n => n
    | AddCount.range lo hi => (lo + hi) / 2
  let availableSlots : ℤ := (state.visionCapacity : ℤ) - state.bubbles.length
  let actualAdd : ℤ := min (c : ℤ) availableSlots
  if actualAdd ≤ 0 then state
  else addLoop base quality bubbleType actualAdd.toNat 0 state

/-- `handleRemoveEffect` (calculator.ts): drop `min count length` bubbles from
the front (`slice(count)`); early return on an empty state. -/
def handleRemoveEffect (state : BubbleState) (count : Nat) : BubbleState :=
  if state.bubbles.length = 0 then state
  else { state with bubbles := state.bubbles.drop (min count state.bubbles.length) }

/-- The mutation loop of `handleUpgradeEffect`: upgrade the first `count`
bubbles in place. -/
def upgradeFirst (tiers : Nat) : Nat → List Bubble → List Bubble
  | 0, bs => bs
  | _ + 1, [] => []
  | n + 1, b :: bs =>
      { b with quality := upgradeQuality b.quality tiers } :: upgradeFirst tiers n bs

/-- `handleUpgradeEffect` (calculator.ts). -/
def handleUpgradeEffect (state : BubbleState) (count : Nat) (tiers : Nat) : BubbleState :=
  if state.bubbles.length = 0 then state
  else { state with bubbles := upgradeFirst tiers (min count state.bubbles.length) state.bubbles }

/-- The push loop of `handleReplicateEffect`: iteration `i` spread-copies
`state.bubbles[i]` into a fresh object with a fresh id and pushes it. -/
def replicateLoop (base : Nat) : Nat → Nat → BubbleState → BubbleState
  | 0, _, state => state
  | k + 1, i, state =>
      let original := state.bubbles.getD i default
      let b : Bubble :=
        { original with
            addr := base + state.bubbles.length
            id := "bubble-replicate-" ++ toString i }
      replicateLoop base k (i + 1) { state with bubbles := state.bubbles ++ [b] }

/-- `handleReplicateEffect` (calculator.ts): clamp to
`min(count, length, availableSlots)` with the slots computed in `ℤ`. -/
def handleReplicateEffect (base : Nat) (state : BubbleState) (count : Nat) : BubbleState :=
  if state.bubbles.length = 0 then state
  else
    let availableSlots : ℤ := (state.visionCapacity : ℤ) - state.bubbles.length
    let k : ℤ := min (min (count : ℤ) (state.bubbles.length : ℤ)) availableSlots
    replicateLoop base k.toNat 0 state

/-- The mutation loop of `handleChangeTypeEffect`: retype (and optionally
upgrade by one tier) the first `count` bubbles in place. -/
def changeTypeFirst (newType : BubbleType) (upgradeAfter : Option Bool) :
    Nat → List Bubble → List Bubble
  | 0, bs => bs
  | _ + 1, [] => []
  | n + 1, b :: bs =>
      let b1 := { b with type := newType }
      let b2 := if upgradeAfter = some true
        then { b1 with quality := upgradeQuality b1.quality 1 } else b1
      b2 :: changeTypeFirst newType upgradeAfter n bs

/-- `handleChangeTypeEffect` (calculator.ts). -/
def handleChangeTypeEffect (state : BubbleState) (count : Nat) (newType : BubbleType)
    (upgradeAfter : Option Bool) : BubbleState :=
  if state.bubbles.length = 0 then state
  else
    { state with
        bubbles := changeTypeFirst newType upgradeAfter (min count state.bubbles.length)
          state.bubbles }

/-- `simulateLotusEffect` (calculator.ts): deep-clone the state, then dispatch
on the effect tag; the default branch covers the five standing-effect variants
and `complex`, attaching the lotus as the standing effect when it carries the
`isFundamental` flag. -/
def simulateLotusEffect (base : Nat) (currentState : BubbleState) (lotus : LotusEffect) :
    BubbleState :=
  let newState : BubbleState :=
    { currentState with bubbles := cloneBubbles base currentState.bubbles }
  match lotus.effect with
  | EffectType.add count quality bubbleType =>
      handleAddEffect base newState count quality bubbleType
  | EffectType.remove count _ => handleRemoveEffect newState count
  | EffectType.upgrade count tiers _ => handleUpgradeEffect newState count tiers
  | EffectType.replicate count _ => handleReplicateEffect base newState count
  | EffectType.changeType count newType upgradeAfter =>
      handleChangeTypeEffect newState count newType upgradeAfter
  | _ =>
      if lotus.isFundamental = some true then { newState with fundamental := some lotus }
      else newState

/-- Whether a bubble passes the optional category filter of a standing effect
(`effect.bubbleType ? bubbles.filter(...) : bubbles`). -/
def bubbleMatches (bubbleType : Option BubbleType) (b : Bubble) : Bool :=
  match bubbleType with
  | some t => b.type == t
  | none => true

/-- The target selection of the multiply-on-enter branch:
`effect.bubbleType ? state.bubbles.filter(b => b.type === effect.bubbleType) : state.bubbles`. -/
def multiplyTargets (bubbleType : Option BubbleType) (bs : List Bubble) : List Bubble :=
  match bubbleType with
  | some t => bs.filter (fun (b : Bubble) => b.type == t)
  | none => bs

/-- The bonus bubbles pushed by the multiply-on-enter loop: `toAdd` fresh
objects of quality `"Red"` in the filter category (default `"Whim"`). -/
def bonusBubbles (base : Nat) (bubbleType : Option BubbleType) (toAdd : Nat) : List Bubble :=
  (List.range toAdd).map (fun i =>
    ⟨base + i, "fundamental-bonus-" ++ toString i, bubbleType.getD BubbleType.Whim,
     BubbleQuality.Red, none⟩)

/-- `applyFundamentalEffects` (calculator.ts).  The `Math.random()` draw of the
chance-upgrade branch is the explicit `roll` argument; bonus bubbles pushed by
the multiply branch are fresh objects with addresses from `base`.  Note the
source pushes bonus bubbles at quality `"Red"` and defaults the multiplier with
`effect.multiplier || 0.33`. -/
def applyFundamentalEffects (base : Nat) (roll : ℚ) (state : BubbleState) : BubbleState :=
  match state.fundamental with
  | none => state
  | some fundamental =>
      match fundamental.effect with
      | EffectType.fundamental_multiplyOnEnterNightmare bubbleType multiplier _ =>
          let targetBubbles : List Bubble := multiplyTargets bubbleType state.bubbles
          let m := numOr multiplier (33 / 100)
          let toAdd : ℤ := ⌊(targetBubbles.length : ℚ) * m⌋
          { state with bubbles := state.bubbles ++ bonusBubbles base bubbleType toAdd.toNat }
      | EffectType.fundamental_chanceUpgradeOnEnterNightmare chance bubbleType =>
          let c := numOr chance (45 / 100)
          if roll < c then
            { state with
                bubbles := state.bubbles.map (fun (b : Bubble) =>
                  if bubbleMatches bubbleType b then
                    { b with quality := upgradeQuality b.quality 1 }
                  else b) }
          else state
      | _ => state

/-- Reference-semantics view of `simulateLotusEffect`: the source only reads
`currentState` (all writes go to the fresh clone), so the pair is
(argument after the call, returned state) = (`currentState`, result). -/
def simulateLotusEffectRef (base : Nat) (currentState : BubbleState) (lotus : LotusEffect) :
    BubbleState × BubbleState :=
  (currentState, simulateLotusEffect base currentState lotus)

/-- Reference-semantics view of `applyFundamentalEffects`: the source pushes
onto `state.bubbles` and reassigns bubble fields in place, then returns
`state` itself, so the argument after the call and the returned state are one
and the same object. -/
def applyFundamentalEffectsRef (base : Nat) (roll : ℚ) (state : BubbleState) :
    BubbleState × BubbleState :=
  (applyFundamentalEffects base roll state, applyFundamentalEffects base roll state)

/-- `scoreLotusChoice` (calculator.ts).  Modelled from the spec: the source
file's copy of this function is cut off after computing `newValue`, its
`return` statement missing from the snapshot; per spec section 4.4 the scorer
returns `value(after) - value(before)`, so the final expression here is
`newValue - currentValue`. -/
def scoreLotusChoice (base : Nat) (roll : ℚ) (currentState : BubbleState) (lotus : LotusEffect)
    (weights : UserWeights) : ℚ :=
  let currentValue := calculateStateValue currentState weights
  let simulatedState := simulateLotusEffect base currentState lotus
  let afterFundamental := applyFundamentalEffects base roll simulatedState
  let newValue := calculateStateValue afterFundamental weights
  newValue - currentValue

/-- One entry of the ranker's output. -/
structure RankedChoice where
  lotus : LotusEffect
  score : ℚ
  simulatedState : BubbleState
deriving DecidableEq, Repr

/-- The `availableLotuses.map (...)` step of `rankLotusChoices`: score each
candidate and record its raw simulated state (without the fundamental applier). -/
def scoredChoices (base : Nat) (roll : ℚ) (currentState : BubbleState)
    (availableLotuses : List LotusEffect) (weights : UserWeights) : List RankedChoice :=
  availableLotuses.map (fun lotus =>
    ⟨lotus, scoreLotusChoice base roll currentState lotus weights,
     simulateLotusEffect base currentState lotus⟩)

/-- Stable insertion used to model `Array.prototype.sort` (a stable sort) with
the comparator `(a, b) => b.score - a.score`: an element is placed before the
first strictly smaller score, i.e. after nothing and before equals only when
coming earlier in the input. -/
def insertScored (x : RankedChoice) : List RankedChoice → List RankedChoice
  | [] => [x]
  | y :: ys => if y.score ≤ x.score then x :: y :: ys else y :: insertScored x ys

/-- Stable sort by score, descending (model of `sort((a, b) => b.score - a.score)`). -/
def sortByScoreDesc : List RankedChoice → List RankedChoice
  | [] => []
  | x :: xs => insertScored x (sortByScoreDesc xs)

/-- `rankLotusChoices` (calculator.ts): score all candidates, sort descending
by score (stably), truncate to `topN` (the source defaults `topN` to 3). -/
def rankLotusChoices (base : Nat) (roll : ℚ) (currentState : BubbleState)
    (availableLotuses : List LotusEffect) (weights : UserWeights) (topN : Nat) :
    List RankedChoice :=
  (sortByScoreDesc (scoredChoices base roll currentState availableLotuses weights)).take topN

/-! ### Helper lemmas about the embedding -/

/-- Numeric index of a grade in the `qualities` array. -/
def gradeIdx : BubbleQuality → Nat
  | BubbleQuality.White => 0
  | BubbleQuality.Blue => 1
  | BubbleQuality.Purple => 2
  | BubbleQuality.Orange => 3
  | BubbleQuality.Red => 4
  | BubbleQuality.Rainbow => 5

theorem indexOf_qualities (q : BubbleQuality) : qualities.indexOf q = gradeIdx q := by
  cases q <;> decide

theorem gradeIdx_le_five (q : BubbleQuality) : gradeIdx q ≤ 5 := by
  cases q <;> decide

theorem gradeIdx_getD_qualities (k : Nat) (hk : k ≤ 5) :
    gradeIdx (qualities.getD k BubbleQuality.White) = k := by
  interval_cases k <;> decide

theorem gradeIdx_upgradeQuality (q : BubbleQuality) (t : Nat) :
    gradeIdx (upgradeQuality q t) = min (gradeIdx q + t) 5 := by
  unfold upgradeQuality
  rw [indexOf_qualities]
  exact gradeIdx_getD_qualities _ (Nat.min_le_right _ _)

theorem length_cloneBubbles : ∀ (bs : List Bubble) (base : Nat),
    (cloneBubbles base bs).length = bs.length := by
  intro bs
  induction bs with
  | nil => intro base; rfl
  | cons b bs ih => intro base; simp [cloneBubbles, ih]

theorem data_cloneBubbles : ∀ (bs : List Bubble) (base : Nat),
    (cloneBubbles base bs).map Bubble.data = bs.map Bubble.data := by
  intro bs
  induction bs with
  | nil => intro base; rfl
  | cons b bs ih => intro base; simp [cloneBubbles, ih, Bubble.data]

theorem addr_cloneBubbles : ∀ (bs : List Bubble) (base low : Nat), low ≤ base →
    ∀ b ∈ cloneBubbles base bs, low ≤ b.addr := by
  intro bs
  induction bs with
  | nil => intro base low _ b hb; simp [cloneBubbles] at hb
  | cons x xs ih =>
      intro base low hlow b hb
      simp only [cloneBubbles, List.mem_cons] at hb
      rcases hb with rfl | hb
      · exact hlow
      · exact ih (base + 1) low (Nat.le_succ_of_le hlow) b hb

theorem value_foldl_cloneBubbles (W : UserWeights) : ∀ (bs : List Bubble) (base : Nat) (acc : ℚ),
    List.foldl
        (fun total b => total + W.qualityMultipliers b.quality * W.typeWeights b.type) acc
        (cloneBubbles base bs)
      = List.foldl
          (fun total b => total + W.qualityMultipliers b.quality * W.typeWeights b.type) acc
          bs := by
  intro bs
  induction bs with
  | nil => intro base acc; rfl
  | cons x xs ih => intro base acc; simp [cloneBubbles, List.foldl_cons, ih]

theorem addLoop_length (base : Nat) (q : Option QualitySpec) (bt : Option BubbleTypeSpec) :
    ∀ (n i : Nat) (st : BubbleState),
      (addLoop base q bt n i st).bubbles.length = st.bubbles.length + n := by
  intro n
  induction n with
  | zero => intro i st; rfl
  | succ n ih =>
      intro i st
      rw [addLoop, ih]
      simp
      omega

theorem addLoop_addr (base : Nat) (q : Option QualitySpec) (bt : Option BubbleTypeSpec)
    (low : Nat) (hlow : low ≤ base) :
    ∀ (n i : Nat) (st : BubbleState), (∀ b ∈ st.bubbles, low ≤ b.addr) →
      ∀ b ∈ (addLoop base q bt n i st).bubbles, low ≤ b.addr := by
  intro n
  induction n with
  | zero => intro i st h; exact h
  | succ n ih =>
      intro i st h
      rw [addLoop]
      apply ih
      intro b hb
      simp only [List.mem_append, List.mem_singleton] at hb
      rcases hb with hb | rfl
      · exact h b hb
      · exact Nat.le_trans hlow (Nat.le_add_right _ _)

theorem replicateLoop_length (base : Nat) :
    ∀ (k i : Nat) (st : BubbleState),
      (replicateLoop base k i st).bubbles.length = st.bubbles.length + k := by
  intro k
  induction k with
  | zero => intro i st; rfl
  | succ k ih =>
      intro i st
      rw [replicateLoop, ih]
      simp
      omega

theorem replicateLoop_addr (base : Nat) (low : Nat) (hlow : low ≤ base) :
    ∀ (k i : Nat) (st : BubbleState), (∀ b ∈ st.bubbles, low ≤ b.addr) →
      ∀ b ∈ (replicateLoop base k i st).bubbles, low ≤ b.addr := by
  intro k
  induction k with
  | zero => intro i st h; exact h
  | succ k ih =>
      intro i st h
      rw [replicateLoop]
      apply ih
      intro b hb
      simp only [List.mem_append, List.mem_singleton] at hb
      rcases hb with hb | rfl
      · exact h b hb
      · exact Nat.le_trans hlow (Nat.le_add_right _ _)

theorem upgradeFirst_addr (tiers : Nat) (low : Nat) :
    ∀ (n : Nat) (bs : List Bubble), (∀ b ∈ bs, low ≤ b.addr) →
      ∀ b ∈ upgradeFirst tiers n bs, low ≤ b.addr := by
  intro n
  induction n with
  | zero => intro bs h; exact h
  | succ n ih =>
      intro bs h
      cases bs with
      | nil => intro b hb; simp [upgradeFirst] at hb
      | cons x xs =>
          intro b hb
          simp only [upgradeFirst, List.mem_cons] at hb
          rcases hb with rfl | hb
          · exact h x (List.mem_cons_self x xs)
          · exact ih xs (fun b2 hb2 => h b2 (List.mem_cons_of_mem x hb2)) b hb

theorem changeTypeFirst_addr (newType : BubbleType) (ua : Option Bool) (low : Nat) :
    ∀ (n : Nat) (bs : List Bubble), (∀ b ∈ bs, low ≤ b.addr) →
      ∀ b ∈ changeTypeFirst newType ua n bs, low ≤ b.addr := by
  intro n
  induction n with
  | zero => intro bs h; exact h
  | succ n ih =>
      intro bs h
      cases bs with
      | nil => intro b hb; simp [changeTypeFirst] at hb
      | cons x xs =>
          intro b hb
          simp only [changeTypeFirst, List.mem_cons] at hb
          rcases hb with rfl | hb
          · split <;> exact h x (List.mem_cons_self x xs)
          · exact ih xs (fun b2 hb2 => h b2 (List.mem_cons_of_mem x hb2)) b hb

theorem value_cloneBubbles (S : BubbleState) (W : UserWeights) (base : Nat) :
    calculateStateValue { S with bubbles := cloneBubbles base S.bubbles } W
      = calculateStateValue S W := by
  unfold calculateStateValue
  exact value_foldl_cloneBubbles W S.bubbles base 0

/-- Every bubble of a simulated state is a freshly allocated object: its
address is at least the allocation base of the simulation call. -/
theorem simulate_addr (base : Nat) (S : BubbleState) (lotus : LotusEffect) :
    ∀ b ∈ (simulateLotusEffect base S lotus).bubbles, base ≤ b.addr := by
  have hclone : ∀ b ∈ cloneBubbles base S.bubbles, base ≤ b.addr :=
    addr_cloneBubbles S.bubbles base base (Nat.le_refl base)
  cases h : lotus.effect with
  | add count quality bubbleType =>
      simp only [simulateLotusEffect, h, handleAddEffect]
      split
      · exact hclone
      · exact addLoop_addr base quality bubbleType base (Nat.le_refl base) _ 0 _ hclone
  | remove count target =>
      simp only [simulateLotusEffect, h, handleRemoveEffect]
      split
      · exact hclone
      · intro b hb
        exact hclone b ((List.drop_sublist _ _).subset hb)
  | upgrade count tiers target =>
      simp only [simulateLotusEffect, h, handleUpgradeEffect]
      split
      · exact hclone
      · exact upgradeFirst_addr tiers base _ _ hclone
  | replicate count target =>
      simp only [simulateLotusEffect, h, handleReplicateEffect]
      split
      · exact hclone
      · exact replicateLoop_addr base base (Nat.le_refl base) _ 0 _ hclone
  | changeType count newType upgradeAfter =>
      simp only [simulateLotusEffect, h, handleChangeTypeEffect]
      split
      · exact hclone
      · exact changeTypeFirst_addr newType upgradeAfter base _ _ hclone
  | fundamental_multiplyOnEnterNightmare bubbleType multiplier minQuality =>
      simp only [simulateLotusEffect, h]
      split <;> exact hclone
  | fundamental_chanceUpgradeOnEnterNightmare chance bubbleType =>
      simp only [simulateLotusEffect, h]
      split <;> exact hclone
  | fundamental_bonusOnQualityChange =>
      simp only [simulateLotusEffect, h]
      split <;> exact hclone
  | fundamental_bonusOnTypeChange =>
      simp only [simulateLotusEffect, h]
      split <;> exact hclone
  | fundamental_bonusOnAddRemove =>
      simp only [simulateLotusEffect, h]
      split <;> exact hclone
  | complex customLogic =>
      simp only [simulateLotusEffect, h]
      split <;> exact hclone

/-! ### Concrete example inputs used by counterexamples and witnesses -/

/-- A white Gear bubble with address `n`. -/
def exGear (n : Nat) : Bubble := ⟨n, "g", BubbleType.Gear, BubbleQuality.White, none⟩

/-- A multiply-on-enter standing-effect lotus (Gear filter, multiplier 1). -/
def exFundMultiply : LotusEffect :=
  ⟨"fund", "Fund", "fund lotus",
   EffectType.fundamental_multiplyOnEnterNightmare (some BubbleType.Gear) 1 none,
   none, some true⟩

/-- A complex lotus with no standing flag. -/
def exComplexLotus : LotusEffect :=
  ⟨"cx", "Complex", "complex lotus", EffectType.complex "noop", none, none⟩

/-- An Add-1 lotus. -/
def exAddLotus : LotusEffect :=
  ⟨"add1", "Add 1", "adds 1 bubble", EffectType.add (AddCount.single 1) none none, none, none⟩

/-- A Remove-2 lotus. -/
def exRemoveLotus : LotusEffect :=
  ⟨"rm2", "Remove 2", "removes 2 bubbles", EffectType.remove 2 none, none, none⟩

/-- Three white Gear bubbles, capacity 10, no standing effect. -/
def exStatePlain : BubbleState := ⟨[exGear 0, exGear 1, exGear 2], 10, none⟩

/-- Three white Gear bubbles, capacity 10, multiply standing effect attached. -/
def exStateFund : BubbleState := ⟨[exGear 0, exGear 1, exGear 2], 10, some exFundMultiply⟩

/-- One white Gear bubble, capacity 10, multiply standing effect attached. -/
def exStateOneFund : BubbleState := ⟨[exGear 0], 10, some exFundMultiply⟩

/-- A state already over its capacity: two bubbles, capacity 1. -/
def exStateOver : BubbleState := ⟨[exGear 0, exGear 1], 1, none⟩

/-! ### Claim theorems -/

/-- C6: the Upgrade operation's grade-advancement (`upgradeQuality`) never
produces a grade below the input grade and never above the top tier Rainbow,
for any tier count; upgrading a White token by 100 tiers yields Rainbow. -/
theorem c6_upgrade_monotone (q : BubbleQuality) (t : Nat) :
    gradeIdx q ≤ gradeIdx (upgradeQuality q t)
    ∧ gradeIdx (upgradeQuality q t) ≤ gradeIdx BubbleQuality.Rainbow
    ∧ upgradeQuality BubbleQuality.White 100 = BubbleQuality.Rainbow := by
  refine ⟨?_, ?_, by decide⟩
  · rw [gradeIdx_upgradeQuality]
    have h5 := gradeIdx_le_five q
    omega
  · rw [gradeIdx_upgradeQuality]
    show min (gradeIdx q + t) 5 ≤ 5
    omega

/-- C7: a Remove effect with requested count `k` drops exactly
`min k length` tokens from the front of the sequence, leaving the remaining
tokens as the unchanged suffix (data-wise; the simulation clones token
objects); on an empty state it is a no-op. -/
theorem c7_remove_front (base : Nat) (S : BubbleState) (lotus : LotusEffect) (k : Nat)
    (tgt : Option RemoveTarget) (h : lotus.effect = EffectType.remove k tgt) :
    ((simulateLotusEffect base S lotus).bubbles).map Bubble.data
      = (S.bubbles.map Bubble.data).drop (min k S.bubbles.length) := by
  simp only [simulateLotusEffect, h, handleRemoveEffect]
  split
  · rename_i h0
    rw [length_cloneBubbles] at h0
    rw [List.length_eq_zero] at h0
    simp [h0, cloneBubbles]
  · rw [length_cloneBubbles, List.map_drop, data_cloneBubbles]

/-- C7 witness: the theorem applied to the concrete remove-2 scenario. -/
theorem c7_witness :
    ((simulateLotusEffect 10 exStatePlain exRemoveLotus).bubbles).map Bubble.data
      = (exStatePlain.bubbles.map Bubble.data).drop (min 2 exStatePlain.bubbles.length) :=
  c7_remove_front 10 exStatePlain exRemoveLotus 2 none rfl

/-- The effect tags that fall into `simulateLotusEffect`'s `default` switch
branch: the five standing-effect variants and Complex. -/
def isStandingOrComplexEffect : EffectType → Bool
  | EffectType.add _ _ _ => false
  | EffectType.remove _ _ => false
  | EffectType.upgrade _ _ _ => false
  | EffectType.replicate _ _ => false
  | EffectType.changeType _ _ _ => false
  | _ => true

/-- C8: when a state already has a Standing Effect attached and the simulated
lotus carries the standing flag with a standing-effect or Complex variant,
the engine silently overwrites the existing reference with the new lotus (a
total function; nothing is rejected). -/
theorem c8_overwrite (base : Nat) (S : BubbleState) (lotus old : LotusEffect)
    (h1 : S.fundamental = some old) (h2 : lotus.isFundamental = some true)
    (h3 : isStandingOrComplexEffect lotus.effect = true) :
    (simulateLotusEffect base S lotus).fundamental = some lotus := by
  cases h : lotus.effect with
  | add count quality bubbleType =>
      rw [h] at h3; simp [isStandingOrComplexEffect] at h3
  | remove count target =>
      rw [h] at h3; simp [isStandingOrComplexEffect] at h3
  | upgrade count tiers target =>
      rw [h] at h3; simp [isStandingOrComplexEffect] at h3
  | replicate count target =>
      rw [h] at h3; simp [isStandingOrComplexEffect] at h3
  | changeType count newType upgradeAfter =>
      rw [h] at h3; simp [isStandingOrComplexEffect] at h3
  | fundamental_multiplyOnEnterNightmare bubbleType multiplier minQuality =>
      simp [simulateLotusEffect, h, h2]
  | fundamental_chanceUpgradeOnEnterNightmare chance bubbleType =>
      simp [simulateLotusEffect, h, h2]
  | fundamental_bonusOnQualityChange => simp [simulateLotusEffect, h, h2]
  | fundamental_bonusOnTypeChange => simp [simulateLotusEffect, h, h2]
  | fundamental_bonusOnAddRemove => simp [simulateLotusEffect, h, h2]
  | complex customLogic => simp [simulateLotusEffect, h, h2]

/-- C8 witness: simulating a second standing-effect lotus over a state that
already holds one replaces the reference. -/
theorem c8_witness :
    (simulateLotusEffect 7 exStateFund exFundMultiply).fundamental = some exFundMultiply :=
  c8_overwrite 7 exStateFund exFundMultiply exFundMultiply rfl rfl rfl

/-- The effect tags covered by the capacity claim. -/
def isAddOrReplicate : EffectType → Bool
  | EffectType.add _ _ _ => true
  | EffectType.replicate _ _ => true
  | _ => false

/-- C2 (amended): for an Add or Replicate effect, a state within its capacity
stays within its capacity (the created token count is clamped to the remaining
capacity), and with zero or negative remaining capacity the operation is a
data-level no-op.  The original universally quantified bound fails on states
already over capacity (see the counterexample). -/
theorem c2_capacity (base : Nat) (S : BubbleState) (lotus : LotusEffect)
    (hEff : isAddOrReplicate lotus.effect = true) :
    (S.bubbles.length ≤ S.visionCapacity →
        (simulateLotusEffect base S lotus).bubbles.length ≤ S.visionCapacity)
    ∧ (S.visionCapacity ≤ S.bubbles.length →
        ((simulateLotusEffect base S lotus).bubbles).map Bubble.data
          = S.bubbles.map Bubble.data) := by
  cases h : lotus.effect with
  | add count quality bubbleType =>
      constructor
      · intro hLen
        simp only [simulateLotusEffect, h, handleAddEffect]
        split
        · rw [length_cloneBubbles]; exact hLen
        · rename_i hcond
          rw [addLoop_length, length_cloneBubbles]
          rw [length_cloneBubbles] at hcond
          omega
      · intro hCap
        simp only [simulateLotusEffect, h, handleAddEffect]
        split
        · exact data_cloneBubbles S.bubbles base
        · rename_i hcond
          rw [length_cloneBubbles] at hcond
          omega
  | remove count target => rw [h] at hEff; simp [isAddOrReplicate] at hEff
  | upgrade count tiers target => rw [h] at hEff; simp [isAddOrReplicate] at hEff
  | replicate count target =>
      constructor
      · intro hLen
        simp only [simulateLotusEffect, h, handleReplicateEffect]
        split
        · rw [length_cloneBubbles]; exact hLen
        · rw [replicateLoop_length, length_cloneBubbles]
          omega
      · intro hCap
        simp only [simulateLotusEffect, h, handleReplicateEffect]
        split
        · exact data_cloneBubbles S.bubbles base
        · rename_i hne
          rw [length_cloneBubbles] at hne
          rw [length_cloneBubbles]
          have hX : min (min ((count : ℤ)) ((S.bubbles.length : ℤ)))
              ((S.visionCapacity : ℤ) - (S.bubbles.length : ℤ)) ≤ 0 := by omega
          rw [Int.toNat_of_nonpos hX]
          exact data_cloneBubbles S.bubbles base
  | changeType count newType upgradeAfter => rw [h] at hEff; simp [isAddOrReplicate] at hEff
  | fundamental_multiplyOnEnterNightmare bubbleType multiplier minQuality =>
      rw [h] at hEff; simp [isAddOrReplicate] at hEff
  | fundamental_chanceUpgradeOnEnterNightmare chance bubbleType =>
      rw [h] at hEff; simp [isAddOrReplicate] at hEff
  | fundamental_bonusOnQualityChange => rw [h] at hEff; simp [isAddOrReplicate] at hEff
  | fundamental_bonusOnTypeChange => rw [h] at hEff; simp [isAddOrReplicate] at hEff
  | fundamental_bonusOnAddRemove => rw [h] at hEff; simp [isAddOrReplicate] at hEff
  | complex customLogic => rw [h] at hEff; simp [isAddOrReplicate] at hEff

/-- C2 counterexample: a state with 2 tokens but capacity 1; an Add effect
no-ops and the result still has more tokens than the capacity, refuting the
unconditional bound `length(simulate(S,E).tokens) <= S.capacity`. -/
theorem c2_counterexample :
    ¬ (simulateLotusEffect 50 exStateOver exAddLotus).bubbles.length
        ≤ exStateOver.visionCapacity := by decide

/-- C2 witness: the amended bound applied to a concrete in-capacity state. -/
theorem c2_witness :
    (simulateLotusEffect 7 exStatePlain exAddLotus).bubbles.length
      ≤ exStatePlain.visionCapacity :=
  (c2_capacity 7 exStatePlain exAddLotus (by decide)).1 (by decide)

theorem value_foldl_eq_sum (W : UserWeights) : ∀ (bs : List Bubble) (acc : ℚ),
    List.foldl
        (fun total b => total + W.qualityMultipliers b.quality * W.typeWeights b.type) acc bs
      = acc + (bs.map (fun b => W.qualityMultipliers b.quality * W.typeWeights b.type)).sum := by
  intro bs
  induction bs with
  | nil => intro acc; simp
  | cons x xs ih =>
      intro acc
      simp only [List.foldl_cons, List.map_cons, List.sum_cons, ih]
      ring

theorem value_eq_sum (S : BubbleState) (W : UserWeights) :
    calculateStateValue S W
      = (S.bubbles.map (fun b => W.qualityMultipliers b.quality * W.typeWeights b.type)).sum := by
  unfold calculateStateValue
  rw [value_foldl_eq_sum]
  ring

/-- C9: the value function is the sum over tokens of
`gradeMultiplier × categoryMultiplier`; it is non-negative whenever both
weight tables are non-negative, and appending any token strictly increases it
under the default weights. -/
theorem c9_value (S : BubbleState) (W : UserWeights) :
    ((∀ q, 0 ≤ W.qualityMultipliers q) → (∀ t, 0 ≤ W.typeWeights t) →
        0 ≤ calculateStateValue S W)
    ∧ (∀ b : Bubble, calculateStateValue S defaultWeights
        < calculateStateValue { S with bubbles := S.bubbles ++ [b] } defaultWeights)
    ∧ calculateStateValue S W
        = (S.bubbles.map (fun b => W.qualityMultipliers b.quality * W.typeWeights b.type)).sum := by
  refine ⟨?_, ?_, value_eq_sum S W⟩
  · intro hq ht
    rw [value_eq_sum]
    apply List.sum_nonneg
    intro x hx
    obtain ⟨b, _, rfl⟩ := List.mem_map.mp hx
    exact mul_nonneg (hq _) (ht _)
  · intro b
    rw [value_eq_sum, value_eq_sum]
    simp only [List.map_append, List.sum_append, List.map_cons, List.map_nil,
      List.sum_cons, List.sum_nil]
    have h1 : 1 ≤ defaultWeights.qualityMultipliers b.quality := by
      cases hb : b.quality <;> norm_num [defaultWeights, DEFAULT_QUALITY_MULTIPLIERS]
    have h2 : 1 ≤ defaultWeights.typeWeights b.type := by
      cases hb : b.type <;> norm_num [defaultWeights, DEFAULT_TYPE_WEIGHTS]
    nlinarith [h1, h2]

/-- C9 witness: the non-negativity and the strict increase at a concrete
state, token and the default weights. -/
theorem c9_witness :
    (0 ≤ calculateStateValue exStatePlain defaultWeights)
    ∧ calculateStateValue exStatePlain defaultWeights
        < calculateStateValue
            { exStatePlain with bubbles := exStatePlain.bubbles ++ [exGear 9] }
            defaultWeights :=
  ⟨(c9_value exStatePlain defaultWeights).1
      (by intro q; cases q <;> norm_num [defaultWeights, DEFAULT_QUALITY_MULTIPLIERS])
      (by intro t; cases t <;> norm_num [defaultWeights, DEFAULT_TYPE_WEIGHTS]),
   (c9_value exStatePlain defaultWeights).2.1 (exGear 9)⟩

/-- C1 (amended): the score of any lotus is
`value(applyStanding(simulate(S, effect))) - value(S)`; a Complex effect with
no standing flag scores 0 provided the state has no Standing Effect attached.
The unconditional zero-score claim fails when a standing effect is attached
(see the counterexample). -/
theorem c1_scoring (base : Nat) (roll : ℚ) (S : BubbleState) (lotus : LotusEffect)
    (W : UserWeights) :
    (∀ str : String, S.fundamental = none → lotus.isFundamental ≠ some true →
        lotus.effect = EffectType.complex str → scoreLotusChoice base roll S lotus W = 0)
    ∧ scoreLotusChoice base roll S lotus W
        = calculateStateValue (applyFundamentalEffects base roll (simulateLotusEffect base S lotus)) W
            - calculateStateValue S W := by
  constructor
  · intro str hNone hNF hEff
    have hsim : simulateLotusEffect base S lotus
        = { S with bubbles := cloneBubbles base S.bubbles } := by
      simp only [simulateLotusEffect, hEff, if_neg hNF]
    have happ : applyFundamentalEffects base roll { S with bubbles := cloneBubbles base S.bubbles }
        = { S with bubbles := cloneBubbles base S.bubbles } := by
      simp only [applyFundamentalEffects, hNone]
    have h2 : scoreLotusChoice base roll S lotus W
        = calculateStateValue
            (applyFundamentalEffects base roll (simulateLotusEffect base S lotus)) W
          - calculateStateValue S W := rfl
    rw [h2, hsim, happ, value_cloneBubbles]
    exact sub_self _
  · rfl

/-- C1 counterexample: with a multiply standing effect already attached to the
state, a Complex no-op lotus with no standing flag scores 48, not 0. -/
theorem c1_counterexample :
    scoreLotusChoice 100 0 exStateFund exComplexLotus defaultWeights ≠ 0 := by
  have hsim : simulateLotusEffect 100 exStateFund exComplexLotus
      = ⟨[⟨100, "g", BubbleType.Gear, BubbleQuality.White, none⟩,
          ⟨101, "g", BubbleType.Gear, BubbleQuality.White, none⟩,
          ⟨102, "g", BubbleType.Gear, BubbleQuality.White, none⟩], 10, some exFundMultiply⟩ := by
    simp [simulateLotusEffect, exComplexLotus, exStateFund, exGear, cloneBubbles]
  have happ : applyFundamentalEffects 100 0
        (⟨[⟨100, "g", BubbleType.Gear, BubbleQuality.White, none⟩,
           ⟨101, "g", BubbleType.Gear, BubbleQuality.White, none⟩,
           ⟨102, "g", BubbleType.Gear, BubbleQuality.White, none⟩], 10,
          some exFundMultiply⟩ : BubbleState)
      = ⟨[⟨100, "g", BubbleType.Gear, BubbleQuality.White, none⟩,
          ⟨101, "g", BubbleType.Gear, BubbleQuality.White, none⟩,
          ⟨102, "g", BubbleType.Gear, BubbleQuality.White, none⟩,
          ⟨100, "fundamental-bonus-" ++ toString 0, BubbleType.Gear, BubbleQuality.Red, none⟩,
          ⟨101, "fundamental-bonus-" ++ toString 1, BubbleType.Gear, BubbleQuality.Red, none⟩,
          ⟨102, "fundamental-bonus-" ++ toString 2, BubbleType.Gear, BubbleQuality.Red, none⟩],
         10, some exFundMultiply⟩ := by
    simp [applyFundamentalEffects, exFundMultiply, multiplyTargets, numOr, bonusBubbles,
      List.range, List.range.loop]
  have h1 : scoreLotusChoice 100 0 exStateFund exComplexLotus defaultWeights
      = calculateStateValue
          (applyFundamentalEffects 100 0 (simulateLotusEffect 100 exStateFund exComplexLotus))
          defaultWeights
        - calculateStateValue exStateFund defaultWeights := rfl
  rw [h1, hsim, happ]
  norm_num [calculateStateValue, exStateFund, exGear, defaultWeights,
    DEFAULT_QUALITY_MULTIPLIERS, DEFAULT_TYPE_WEIGHTS]

/-- C1 witness: on a state with no standing effect, the Complex no-op lotus
scores exactly 0. -/
theorem c1_witness : scoreLotusChoice 5 0 exStatePlain exComplexLotus defaultWeights = 0 :=
  (c1_scoring 5 0 exStatePlain exComplexLotus defaultWeights).1 "noop" rfl (by decide) rfl

/-- C4 (amended): the multiply-on-enter standing effect appends exactly
`floor(T × m')` tokens, where `T` counts the tokens matching the category
filter and `m'` is the multiplier with a falsy (zero) value replaced by 0.33
(not 1/3); each appended token is at grade Red (the second-highest grade, not
Rainbow) in the filter category (Whim when unfiltered); the original tokens
are untouched and no capacity clamp is applied. -/
theorem c4_multiply (base : Nat) (roll : ℚ) (S : BubbleState) (lotus : LotusEffect)
    (bt : Option BubbleType) (m : ℚ) (mq : Option BubbleQuality)
    (h1 : S.fundamental = some lotus)
    (h2 : lotus.effect = EffectType.fundamental_multiplyOnEnterNightmare bt m mq) :
    (applyFundamentalEffects base roll S).bubbles.length
        = S.bubbles.length
          + (⌊((multiplyTargets bt S.bubbles).length : ℚ) * numOr m (33 / 100)⌋).toNat
    ∧ (applyFundamentalEffects base roll S).bubbles.take S.bubbles.length = S.bubbles
    ∧ ∀ b ∈ (applyFundamentalEffects base roll S).bubbles.drop S.bubbles.length,
        b.quality = BubbleQuality.Red ∧ b.type = bt.getD BubbleType.Whim := by
  have happ : applyFundamentalEffects base roll S
      = { S with bubbles := (S.bubbles ++ bonusBubbles base bt
            (⌊((multiplyTargets bt S.bubbles).length : ℚ) * numOr m (33 / 100)⌋).toNat) } := by
    simp only [applyFundamentalEffects, h1, h2]
  rw [happ]
  refine ⟨by simp [bonusBubbles], List.take_left _ _, ?_⟩
  intro b hb
  simp only [List.drop_left, bonusBubbles] at hb
  obtain ⟨i, _, rfl⟩ := List.mem_map.mp hb
  exact ⟨rfl, rfl⟩

/-- C4 counterexample: one white Gear token under the multiply standing effect
(filter Gear, multiplier 1); the appended bonus token is at grade Red, not the
top grade Rainbow claimed. -/
theorem c4_counterexample :
    ((applyFundamentalEffects 10 0 exStateOneFund).bubbles.map (fun b => b.quality))
        = [BubbleQuality.White, BubbleQuality.Red]
    ∧ BubbleQuality.Red ≠ BubbleQuality.Rainbow := by
  constructor
  · have happ : applyFundamentalEffects 10 0 exStateOneFund
        = ⟨[⟨0, "g", BubbleType.Gear, BubbleQuality.White, none⟩,
            ⟨10, "fundamental-bonus-" ++ toString 0, BubbleType.Gear, BubbleQuality.Red, none⟩],
           10, some exFundMultiply⟩ := by
      simp [applyFundamentalEffects, exStateOneFund, exFundMultiply, exGear, multiplyTargets,
        numOr, bonusBubbles, List.range, List.range.loop]
    rw [happ]
    rfl
  · decide

/-- C4 witness: the amended statement applied to the three-Gear state with an
explicit multiplier of 1. -/
theorem c4_witness :
    (applyFundamentalEffects 100 0 exStateFund).bubbles.length
        = exStateFund.bubbles.length
          + (⌊((multiplyTargets (some BubbleType.Gear) exStateFund.bubbles).length : ℚ)
                * numOr 1 (33 / 100)⌋).toNat
    ∧ (applyFundamentalEffects 100 0 exStateFund).bubbles.take exStateFund.bubbles.length
        = exStateFund.bubbles
    ∧ ∀ b ∈ (applyFundamentalEffects 100 0 exStateFund).bubbles.drop
          exStateFund.bubbles.length,
        b.quality = BubbleQuality.Red ∧ b.type = (some BubbleType.Gear).getD BubbleType.Whim :=
  c4_multiply 100 0 exStateFund exFundMultiply (some BubbleType.Gear) 1 none rfl rfl

/-- C3 (amended): `simulate` never mutates its input and returns a state whose
token objects are freshly allocated (addresses at or above the allocation
base, hence distinct from any input token's); `applyStanding`, however, works
in place: the argument object after the call and the returned state are one
and the same (it mutates its input, see the counterexample). -/
theorem c3_purity (base : Nat) (roll : ℚ) (S : BubbleState) (lotus : LotusEffect) :
    (simulateLotusEffectRef base S lotus).1 = S
    ∧ (∀ b ∈ (simulateLotusEffectRef base S lotus).2.bubbles, base ≤ b.addr)
    ∧ ((∀ b ∈ S.bubbles, b.addr < base) →
        ∀ b2 ∈ (simulateLotusEffectRef base S lotus).2.bubbles, ∀ b1 ∈ S.bubbles,
          b2.addr ≠ b1.addr)
    ∧ (applyFundamentalEffectsRef base roll S).1 = (applyFundamentalEffectsRef base roll S).2 := by
  refine ⟨rfl, simulate_addr base S lotus, ?_, rfl⟩
  intro hlt b2 hb2 b1 hb1
  have ha2 := simulate_addr base S lotus b2 hb2
  have ha1 := hlt b1 hb1
  omega

/-- C3 counterexample: with the multiply standing effect attached, the
argument object observed after the `applyStanding` call differs from the input
state — the call mutated it in place (three bonus tokens were pushed). -/
theorem c3_counterexample : (applyFundamentalEffectsRef 50 0 exStateFund).1 ≠ exStateFund := by
  have happ : applyFundamentalEffects 50 0 exStateFund
      = ⟨[exGear 0, exGear 1, exGear 2,
          ⟨50, "fundamental-bonus-" ++ toString 0, BubbleType.Gear, BubbleQuality.Red, none⟩,
          ⟨51, "fundamental-bonus-" ++ toString 1, BubbleType.Gear, BubbleQuality.Red, none⟩,
          ⟨52, "fundamental-bonus-" ++ toString 2, BubbleType.Gear, BubbleQuality.Red, none⟩],
         10, some exFundMultiply⟩ := by
    simp [applyFundamentalEffects, exStateFund, exFundMultiply, exGear, multiplyTargets,
      numOr, bonusBubbles, List.range, List.range.loop]
  show applyFundamentalEffects 50 0 exStateFund ≠ exStateFund
  rw [happ]
  intro hcontra
  have hlen := congrArg (fun s => s.bubbles.length) hcontra
  simp [exStateFund] at hlen

/-- C3 witness: purity and freshness at a concrete state and lotus — the first
simulated bubble is a fresh object (address at or above the allocation base). -/
theorem c3_witness :
    50 ≤ ((simulateLotusEffectRef 50 exStatePlain exAddLotus).2.bubbles.getD 0 default).addr :=
  (c3_purity 50 0 exStatePlain exAddLotus).2.1
    ((simulateLotusEffectRef 50 exStatePlain exAddLotus).2.bubbles.getD 0 default) (by decide)

theorem length_insertScored (x : RankedChoice) :
    ∀ l : List RankedChoice, (insertScored x l).length = l.length + 1 := by
  intro l
  induction l with
  | nil => rfl
  | cons y ys ih =>
      rw [insertScored]
      split
      · rfl
      · simp only [List.length_cons, ih]

theorem length_sortByScoreDesc :
    ∀ l : List RankedChoice, (sortByScoreDesc l).length = l.length := by
  intro l
  induction l with
  | nil => rfl
  | cons x xs ih =>
      rw [sortByScoreDesc, length_insertScored, ih, List.length_cons]

theorem mem_insertScored (x a : RankedChoice) :
    ∀ l : List RankedChoice, a ∈ insertScored x l ↔ a = x ∨ a ∈ l := by
  intro l
  induction l with
  | nil => simp [insertScored]
  | cons y ys ih =>
      rw [insertScored]
      split
      · simp
      · simp only [List.mem_cons, ih]
        tauto

theorem mem_sortByScoreDesc (a : RankedChoice) :
    ∀ l : List RankedChoice, a ∈ sortByScoreDesc l ↔ a ∈ l := by
  intro l
  induction l with
  | nil => simp [sortByScoreDesc]
  | cons x xs ih =>
      rw [sortByScoreDesc, mem_insertScored]
      simp only [List.mem_cons, ih]

theorem pairwise_insertScored (x : RankedChoice) :
    ∀ l : List RankedChoice,
      l.Pairwise (fun a b => b.score ≤ a.score) →
      (insertScored x l).Pairwise (fun a b => b.score ≤ a.score) := by
  intro l
  induction l with
  | nil => intro _; simp [insertScored]
  | cons y ys ih =>
      intro h
      rw [List.pairwise_cons] at h
      rw [insertScored]
      split
      · rename_i hc
        rw [List.pairwise_cons]
        constructor
        · intro z hz
          rcases List.mem_cons.mp hz with rfl | hz2
          · exact hc
          · exact le_trans (h.1 z hz2) hc
        · rw [List.pairwise_cons]
          exact h
      · rename_i hc
        rw [List.pairwise_cons]
        constructor
        · intro z hz
          rcases (mem_insertScored x z ys).mp hz with rfl | hz2
          · exact le_of_lt (lt_of_not_le hc)
          · exact h.1 z hz2
        · exact ih h.2

theorem pairwise_sortByScoreDesc :
    ∀ l : List RankedChoice,
      (sortByScoreDesc l).Pairwise (fun a b => b.score ≤ a.score) := by
  intro l
  induction l with
  | nil => simp [sortByScoreDesc]
  | cons x xs ih => exact pairwise_insertScored x _ ih

theorem filter_insertScored (s : ℚ) (x : RankedChoice) :
    ∀ l : List RankedChoice,
      (insertScored x l).filter (fun e => decide (e.score = s))
        = if x.score = s then x :: l.filter (fun e => decide (e.score = s))
          else l.filter (fun e => decide (e.score = s)) := by
  intro l
  induction l with
  | nil => by_cases hx : x.score = s <;> simp [insertScored, hx]
  | cons y ys ih =>
      rw [insertScored]
      split
      · by_cases hx : x.score = s <;> simp [List.filter_cons, hx]
      · rename_i hc
        by_cases hx : x.score = s
        · have hy : ¬(y.score = s) := by
            intro hy
            exact hc (le_of_eq (hy.trans hx.symm))
          simp [List.filter_cons, ih, hx, hy]
        · simp only [List.filter_cons, ih, hx, if_false]

theorem filter_sortByScoreDesc (s : ℚ) :
    ∀ l : List RankedChoice,
      (sortByScoreDesc l).filter (fun e => decide (e.score = s))
        = l.filter (fun e => decide (e.score = s)) := by
  intro l
  induction l with
  | nil => rfl
  | cons x xs ih =>
      rw [sortByScoreDesc, filter_insertScored]
      by_cases hx : x.score = s <;> simp [List.filter_cons, hx, ih]

/-- C5: the ranker's output is sorted descending by score (non-increasing, ties
allowed), has length `min topN candidates`, is the `topN`-prefix of the stable
descending sort of the scored candidates, and that sort is stable: for every
score value, the entries holding it appear in candidate order. -/
theorem c5_rank (base : Nat) (roll : ℚ) (S : BubbleState) (lotuses : List LotusEffect)
    (W : UserWeights) (topN : Nat) :
    (rankLotusChoices base roll S lotuses W topN).Pairwise (fun a b => b.score ≤ a.score)
    ∧ (rankLotusChoices base roll S lotuses W topN).length = min topN lotuses.length
    ∧ rankLotusChoices base roll S lotuses W topN
        = (sortByScoreDesc (scoredChoices base roll S lotuses W)).take topN
    ∧ ∀ s : ℚ,
        (sortByScoreDesc (scoredChoices base roll S lotuses W)).filter
            (fun e => decide (e.score = s))
          = (scoredChoices base roll S lotuses W).filter (fun e => decide (e.score = s)) := by
  refine ⟨?_, ?_, rfl, fun s => filter_sortByScoreDesc s _⟩
  · exact List.Pairwise.sublist (List.take_sublist _ _) (pairwise_sortByScoreDesc _)
  · rw [rankLotusChoices, List.length_take, length_sortByScoreDesc, scoredChoices,
      List.length_map]

/-- C10: every entry the ranker returns pairs a `simulatedState` computed
WITHOUT the standing-effect applier with a score computed over
`applyStanding(simulate(S, lotus.effect))`; and on a state with a multiply
standing effect attached those two states differ. -/
theorem c10_ranker (base : Nat) (roll : ℚ) (S : BubbleState) (lotuses : List LotusEffect)
    (W : UserWeights) (topN : Nat) :
    (∀ e ∈ rankLotusChoices base roll S lotuses W topN,
        e.simulatedState = simulateLotusEffect base S e.lotus
        ∧ e.score = calculateStateValue
              (applyFundamentalEffects base roll (simulateLotusEffect base S e.lotus)) W
            - calculateStateValue S W)
    ∧ applyFundamentalEffects 100 0 (simulateLotusEffect 100 exStateFund exComplexLotus)
        ≠ simulateLotusEffect 100 exStateFund exComplexLotus := by
  constructor
  · intro e he
    have hmem : e ∈ scoredChoices base roll S lotuses W := by
      have hs : e ∈ sortByScoreDesc (scoredChoices base roll S lotuses W) :=
        (List.take_sublist _ _).subset he
      exact (mem_sortByScoreDesc e _).mp hs
    obtain ⟨lotus, _, rfl⟩ := List.mem_map.mp hmem
    exact ⟨rfl, rfl⟩
  · have hsim : simulateLotusEffect 100 exStateFund exComplexLotus
        = ⟨[⟨100, "g", BubbleType.Gear, BubbleQuality.White, none⟩,
            ⟨101, "g", BubbleType.Gear, BubbleQuality.White, none⟩,
            ⟨102, "g", BubbleType.Gear, BubbleQuality.White, none⟩], 10,
           some exFundMultiply⟩ := by
      simp [simulateLotusEffect, exComplexLotus, exStateFund, exGear, cloneBubbles]
    rw [hsim]
    have happ : applyFundamentalEffects 100 0
          (⟨[⟨100, "g", BubbleType.Gear, BubbleQuality.White, none⟩,
             ⟨101, "g", BubbleType.Gear, BubbleQuality.White, none⟩,
             ⟨102, "g", BubbleType.Gear, BubbleQuality.White, none⟩], 10,
            some exFundMultiply⟩ : BubbleState)
        = ⟨[⟨100, "g", BubbleType.Gear, BubbleQuality.White, none⟩,
            ⟨101, "g", BubbleType.Gear, BubbleQuality.White, none⟩,
            ⟨102, "g", BubbleType.Gear, BubbleQuality.White, none⟩,
            ⟨100, "fundamental-bonus-" ++ toString 0, BubbleType.Gear, BubbleQuality.Red, none⟩,
            ⟨101, "fundamental-bonus-" ++ toString 1, BubbleType.Gear, BubbleQuality.Red, none⟩,
            ⟨102, "fundamental-bonus-" ++ toString 2, BubbleType.Gear, BubbleQuality.Red, none⟩],
           10, some exFundMultiply⟩ := by
      simp [applyFundamentalEffects, exFundMultiply, multiplyTargets, numOr, bonusBubbles,
        List.range, List.range.loop]
    rw [happ]
    intro hcontra
    have hlen := congrArg (fun st => st.bubbles.length) hcontra
    simp at hlen

/-- C10 witness: for the single-candidate ranking over a plain state, the
returned entry's `simulatedState` and score have the claimed shapes. -/
theorem c10_witness :
    (⟨exAddLotus, scoreLotusChoice 100 0 exStatePlain exAddLotus defaultWeights,
      simulateLotusEffect 100 exStatePlain exAddLotus⟩ : RankedChoice).simulatedState
        = simulateLotusEffect 100 exStatePlain
            (⟨exAddLotus, scoreLotusChoice 100 0 exStatePlain exAddLotus defaultWeights,
              simulateLotusEffect 100 exStatePlain exAddLotus⟩ : RankedChoice).lotus
    ∧ (⟨exAddLotus, scoreLotusChoice 100 0 exStatePlain exAddLotus defaultWeights,
        simulateLotusEffect 100 exStatePlain exAddLotus⟩ : RankedChoice).score
        = calculateStateValue
            (applyFundamentalEffects 100 0 (simulateLotusEffect 100 exStatePlain exAddLotus))
            defaultWeights
          - calculateStateValue exStatePlain defaultWeights :=
  (c10_ranker 100 0 exStatePlain [exAddLotus] defaultWeights 3).1
    ⟨exAddLotus, scoreLotusChoice 100 0 exStatePlain exAddLotus defaultWeights,
     simulateLotusEffect 100 exStatePlain exAddLotus⟩
    (List.mem_cons_self _ _)
